import Mathlib

/-!
Verification of the ES-CLI terminal client (Python sources: `main.py`, `ui.py`,
`es_client.py`, `time_range.py`, `config.py`) against its natural-language
specification.  The Python code is shallowly embedded: pure fragments become
Lean functions, stateful widget code becomes explicit state passing over
record types, and Python strings are modelled as Lean `String`s (lists of
characters).  Widget-toolkit rendering (urwid text widgets, list walkers) is
outside the model; the data attributes the code mutates (`headers`, `_rows`,
`total_hits`, `_hscroll_pos`, `current_from`, the status-bar text, ...) are
modelled as record fields.
-/

/-! ## Python string primitives -/

/-- Characters removed by Python's `str.strip()` (ASCII whitespace). -/
def isPySpace (c : Char) : Bool :=
  c = ' ' || c = '\t' || c = '\n' || c = '\x0d' || c = '\x0b' || c = '\x0c'

/-- Python `str.strip()` on a character list. -/
def pyStripChars (l : List Char) : List Char :=
  ((l.dropWhile isPySpace).reverse.dropWhile isPySpace).reverse

/-- Python `str.strip()`. -/
def pyStrip (s : String) : String := String.mk (pyStripChars s.data)

/-- Python `str.upper()` (ASCII, which is all the code relies on). -/
def pyUpper (s : String) : String := String.mk (s.data.map Char.toUpper)

/-- Python slice `s[:n]`. -/
def pyTake (s : String) (n : Nat) : String := String.mk (s.data.take n)

/-- Python slice `s[n:]`. -/
def pyDrop (s : String) (n : Nat) : String := String.mk (s.data.drop n)

/-- First index (if any) at which `needle` occurs in `hay`, as in `str.find`. -/
def findSub : List Char → List Char → Option Nat
  | hay, needle =>
    if needle.isPrefixOf hay then some 0
    else
      match hay with
      | [] => none
      | _ :: t => (findSub t needle).map (· + 1)

/-- Python `hay.find(needle)`, with `none` in place of `-1`. -/
def pyFindStr (hay needle : String) : Option Nat := findSub hay.data needle.data

/-- Python `needle in hay`. -/
def pyContains (hay needle : String) : Bool := (pyFindStr hay needle).isSome

/-- First index of character `c` in `l` (if any). -/
def findCharIdx : List Char → Char → Option Nat
  | [], _ => none
  | a :: t, c => if a = c then some 0 else (findCharIdx t c).map (· + 1)

/-- Python `s.find(c, start)`, with `none` in place of `-1`. -/
def pyFindCharFrom (s : String) (c : Char) (start : Nat) : Option Nat :=
  (findCharIdx (s.data.drop start) c).map (· + start)

/-! ## Python datetimes and the Elasticsearch timestamp encoding
(`time_range.py`, `TimeRange.to_elasticsearch_format`, and the identical
inline expression in `es_client.py`):
`strftime('%Y-%m-%dT%H:%M:%S.%f')[:-3] + 'Z'`. -/

/-- A `datetime.datetime` value (UTC, no tzinfo), with the datetime-module
invariants (`month ∈ 1..12`, `microsecond < 10^6`, ...) left implicit. -/
structure PyDateTime where
  year : Nat
  month : Nat
  day : Nat
  hour : Nat
  minute : Nat
  second : Nat
  microsecond : Nat
deriving DecidableEq, Repr

/-- The `w` low-order decimal digits of `n`, zero padded — exactly how
`strftime` renders a fixed-width numeric field. -/
def digitsPadded : Nat → Nat → List Char
  | _, 0 => []
  | n, w + 1 => digitsPadded (n / 10) w ++ [Nat.digitChar (n % 10)]

/-- The part of `strftime('%Y-%m-%dT%H:%M:%S.%f')` up to and including the
decimal point. -/
def iso_second_head (d : PyDateTime) : List Char :=
  digitsPadded d.year 4 ++ '-' :: digitsPadded d.month 2 ++ '-' ::
    digitsPadded d.day 2 ++ 'T' :: digitsPadded d.hour 2 ++ ':' ::
    digitsPadded d.minute 2 ++ ':' :: digitsPadded d.second 2 ++ ['.']

/-- `d.strftime('%Y-%m-%dT%H:%M:%S.%f')`: microsecond-precision ISO rendering. -/
def strftime_iso_micro (d : PyDateTime) : List Char :=
  iso_second_head d ++ digitsPadded d.microsecond 6

/-- `d.strftime('%Y-%m-%dT%H:%M:%S.%f')[:-3] + 'Z'`, as a character list. -/
def es_time_chars (d : PyDateTime) : List Char :=
  let s := strftime_iso_micro d
  s.take (s.length - 3) ++ ['Z']

/-- The backend timestamp encoding used by both query paths. -/
def esFormat (d : PyDateTime) : String := String.mk (es_time_chars d)

/-- `TimeRange.to_elasticsearch_format`: the `gte`/`lte` pair. -/
def to_elasticsearch_format (start_time end_time : PyDateTime) : String × String :=
  (esFormat start_time, esFormat end_time)

/-! ## Python values appearing in backend responses -/

/-- The JSON-ish values the normalizer stringifies.  `obj r` stands for a
dict or list whose Python `str(...)` rendering is `r`; floats are not
modelled (no claim touches them). -/
inductive PyValue where
  | str (s : String)
  | int (n : Int)
  | bool (b : Bool)
  | none
  | obj (r : String)
deriving DecidableEq, Repr

/-- `str(value)` as used by the KQL result path in `ui.py`
(`_display_kql_results`): dict/list via their repr, booleans as
`True`/`False`, `None` as `"None"`. -/
def pyStr : PyValue → String
  | .str s => s
  | .int n => toString n
  | .bool b => if b then "True" else "False"
  | .none => "None"
  | .obj r => r

/-- Stringification on the ESQL result path (`_display_esql_results`):
identical except that `None` becomes the empty string. -/
def pyStrEsql : PyValue → String
  | .none => ""
  | v => pyStr v

/-- Python `dict.get(k)` over an association list (first binding wins). -/
def pyGet : List (String × PyValue) → String → Option PyValue
  | [], _ => Option.none
  | (k', v) :: rest, k => if k' = k then some v else pyGet rest k

/-! ## Query Compiler, KQL path (`es_client.py`, `ESClient.search_kql`) -/

/-- The shapes of query objects `search_kql` builds. -/
inductive ESQueryClause where
  | rangeClause (field gte lte : String)
  | queryString (q : String)
  | boolMust (clauses : List ESQueryClause)
  | matchAll
deriving Repr

/-- The search body `search_kql` posts (plus the constant
`timeout='300s', request_timeout=300` not modelled as data). -/
structure SearchBody where
  query : ESQueryClause
  size : Nat
  from_ : Nat
  sort : List (String × String)
deriving Repr

/-- Body construction in `ESClient.search_kql`: optional time-range clause,
optional `query_string` clause (only when the stripped text is non-empty),
single clause used alone, several wrapped in `bool`/`must`, none at all
replaced by `match_all`; default sort on the time field descending whenever
the `sort` argument is falsy. -/
def search_kql_body (query : String) (size from_ : Nat)
    (sort : Option (List (String × String)))
    (time_range : Option (PyDateTime × PyDateTime)) (time_field : String) :
    SearchBody :=
  let timeClauses : List ESQueryClause :=
    match time_range with
    | some (start_time, end_time) =>
      [ESQueryClause.rangeClause time_field (esFormat start_time) (esFormat end_time)]
    | Option.none => []
  let strClauses : List ESQueryClause :=
    if pyStrip query = "" then [] else [ESQueryClause.queryString query]
  let query_clauses := timeClauses ++ strClauses
  let final_query :=
    match query_clauses with
    | [c] => c
    | [] => ESQueryClause.matchAll
    | cs => ESQueryClause.boolMust cs
  { query := final_query
    size := size
    from_ := from_
    sort :=
      match sort with
      | some s => if s.isEmpty then [(time_field, "desc")] else s
      | Option.none => [(time_field, "desc")] }

/-! ## Query Compiler, ESQL path (`es_client.py`, `ESClient.query_esql`,
the time-filter text surgery performed before the HTTP POST). -/

/-- The time-range predicate injection of `query_esql`.  With a time range:
if the upper-cased query contains `WHERE`, splice the filter right after the
first `WHERE`; otherwise find the first `FROM` and either insert a
`| WHERE ... |` stage before the first pipe after it, or append the stage at
the end; with no `FROM` at all the query is returned untouched. -/
def query_esql_rewrite (query : String)
    (time_range : Option (PyDateTime × PyDateTime)) (time_field : String) :
    String :=
  match time_range with
  | Option.none => query
  | some (start_time, end_time) =>
    let start_str := esFormat start_time
    let end_str := esFormat end_time
    let query_upper := pyUpper query
    match pyFindStr query_upper "WHERE" with
    | some where_pos =>
      let after_where := pyStrip (pyDrop query (where_pos + 5))
      let time_filter :=
        time_field ++ " >= \"" ++ start_str ++ "\" AND " ++
          time_field ++ " <= \"" ++ end_str ++ "\" AND "
      pyTake query (where_pos + 5) ++ " " ++ time_filter ++ after_where
    | Option.none =>
      match pyFindStr query_upper "FROM" with
      | some from_pos =>
        match pyFindCharFrom query '|' from_pos with
        | some pipe_pos =>
          pyStrip (pyTake query pipe_pos) ++
            " | WHERE " ++ time_field ++ " >= \"" ++ start_str ++ "\" AND " ++
            time_field ++ " <= \"" ++ end_str ++ "\" | " ++
            pyStrip (pyDrop query (pipe_pos + 1))
        | Option.none =>
          pyStrip query ++
            " | WHERE " ++ time_field ++ " >= \"" ++ start_str ++ "\" AND " ++
            time_field ++ " <= \"" ++ end_str ++ "\""
      | Option.none => query

/-! ## Result Normalizer and table state (`ui.py`, `ResultsTable`) -/

/-- The data attributes of `ResultsTable` (`headers`, `_rows`, `total_hits`,
`_hscroll_pos`, `from_`, `size`).  The urwid widgets (`info_text`,
`list_walker`) are rendering and are not part of the model. -/
structure TableState where
  headers : List String
  rows : List (List String)
  total_hits : Nat
  hscroll_pos : Nat
  from_ : Nat
  size : Nat
deriving DecidableEq, Repr

/-- `ResultsTable.__init__` attribute values. -/
def initTable : TableState :=
  { headers := [], rows := [], total_hits := 0, hscroll_pos := 0, from_ := 0, size := 100 }

/-- The inner loop of `_filter_empty_columns`: column `i` counts as all-empty
when every row that is long enough has a whitespace-only cell there. -/
def colAllEmpty (rows : List (List String)) (i : Nat) : Bool :=
  rows.all fun row =>
    match row[i]? with
    | some v => pyStrip v == ""
    | Option.none => true

/-- The `empty_col_indices` set computed by `_filter_empty_columns`. -/
def empty_col_indices (headers : List String) (rows : List (List String)) : List Nat :=
  (List.range headers.length).filter (colAllEmpty rows)

/-- `[val for i, val in enumerate(l) if i not in empties]`. -/
def removeIdxs (empties : List Nat) (l : List String) : List String :=
  (l.enum.filter fun p => !(decide (p.1 ∈ empties))).map Prod.snd

/-- `ResultsTable._filter_empty_columns` on the `(headers, rows)` pair:
no-op when either is empty, or when no column is all-empty, or when every
column is all-empty; otherwise drop the all-empty columns from the headers
and from every row in lockstep. -/
def elide (headers : List String) (rows : List (List String)) :
    List String × List (List String) :=
  if headers.isEmpty || rows.isEmpty then (headers, rows)
  else
    let empties := empty_col_indices headers rows
    if !empties.isEmpty && decide (empties.length < headers.length) then
      (removeIdxs empties headers, rows.map (removeIdxs empties))
    else (headers, rows)

/-- `ResultsTable._filter_empty_columns` as a `TableState` transformer. -/
def filter_empty_columns (st : TableState) : TableState :=
  let p := elide st.headers st.rows
  { st with headers := p.1, rows := p.2 }

/-- One hit of a structured search response.  `id`/`index` model
`str(hit.get('_id', ''))` and `str(hit.get('_index', ''))`; `source` is the
`_source` dict as an association list in dict insertion order. -/
structure KqlHit where
  id : String
  index : String
  source : List (String × PyValue)
deriving DecidableEq, Repr

/-- The two shapes of `response['hits']['total']`: `{value: N}` (possibly
without the key) or a bare number. -/
inductive KqlTotal where
  | dict (value : Option Nat)
  | scalar (n : Nat)
deriving DecidableEq, Repr

/-- The part of a structured search response the normalizer reads. -/
structure KqlResponse where
  hits : List KqlHit
  total : KqlTotal
deriving DecidableEq, Repr

/-- Total-hit extraction in `_display_kql_results`, handling both shapes. -/
def extractTotal : KqlTotal → Nat
  | .dict (some n) => n
  | .dict Option.none => 0
  | .scalar n => n

/-- Python `list.insert(1, x)` (clamping, exactly like the source call). -/
def pyInsert1 (x : String) (l : List String) : List String :=
  match l with
  | [] => [x]
  | h :: t => h :: x :: t

/-- Header derivation in `_display_kql_results`: the first hit's source keys,
with `_id` inserted at position 0 and `_index` at position 1 when absent. -/
def kqlHeaders (source : List (String × PyValue)) : List String :=
  let headers_list := source.map Prod.fst
  let headers_list := if "_id" ∈ headers_list then headers_list else "_id" :: headers_list
  if "_index" ∈ headers_list then headers_list else pyInsert1 "_index" headers_list

/-- Row construction in `_display_kql_results`: `_id` and `_index` first,
then one stringified cell per remaining header, the empty string when the
hit's source lacks that field (`source.get(header, '')`). -/
def kqlRow (headers : List String) (hit : KqlHit) : List String :=
  [hit.id, hit.index] ++
    (headers.drop 2).map fun h =>
      match pyGet hit.source h with
      | some v => pyStr v
      | Option.none => ""

/-- `ResultsTable._display_kql_results` on the modelled attributes:
`total_hits` is always taken from the response; with no hits the method
returns early (only the rendered list is cleared — headers and rows keep
their previous values); otherwise headers and rows are rebuilt from the
response, empty columns are elided, and the horizontal scroll is reset. -/
def display_kql (st : TableState) (r : KqlResponse) : TableState :=
  let st0 := { st with total_hits := extractTotal r.total }
  match r.hits with
  | [] => st0
  | first :: _ =>
    let headers := kqlHeaders first.source
    let rows := r.hits.map (kqlRow headers)
    let st1 := filter_empty_columns { st0 with headers := headers, rows := rows }
    { st1 with hscroll_pos := 0 }

/-- The part of an ESQL `_query` response the normalizer reads: column names
(already projected through `col.get('name', '')`) and value rows. -/
structure EsqlResponse where
  columns : List String
  values : List (List PyValue)
deriving DecidableEq, Repr

/-- `ResultsTable._display_esql_results` on the modelled attributes: early
return leaving every attribute unchanged when columns or values are missing;
otherwise rebuild headers/rows, set `total_hits` to the row count, elide
empty columns and reset the horizontal scroll. -/
def display_esql (st : TableState) (r : EsqlResponse) : TableState :=
  if r.columns.isEmpty || r.values.isEmpty then st
  else
    let headers := r.columns
    let rows := r.values.map fun row_values => row_values.map pyStrEsql
    let st1 := filter_empty_columns
      { st with headers := headers, rows := rows, total_hits := rows.length }
    { st1 with hscroll_pos := 0 }

/-- `max(0, len(headers) - max_cols_per_screen)` with the constant budget 6. -/
def maxOffset (headers : List String) : Nat := max 0 (headers.length - 6)

/-- `ResultsTable.keypress` state effect: `q`/`n`/`p` bubble up unchanged,
`right`/`l` and `left`/`h` move the horizontal viewport within bounds (the
re-rendering they trigger only touches widgets), everything else is passed
to the superclass (which never touches the modelled attributes). -/
def results_keypress (st : TableState) (key : String) : TableState × Option String :=
  if key = "q" then (st, some key)
  else if key = "n" then (st, some key)
  else if key = "p" then (st, some key)
  else if key = "right" || key = "l" then
    (if st.hscroll_pos < maxOffset st.headers then
      { st with hscroll_pos := st.hscroll_pos + 1 }
    else st, Option.none)
  else if key = "left" || key = "h" then
    (if 0 < st.hscroll_pos then { st with hscroll_pos := st.hscroll_pos - 1 }
    else st, Option.none)
  else (st, some key)

/-! ## Session Controller (`ui.py` `MainWindow`, `main.py`
`handle_unhandled_input`) -/

/-- The Python exception classes `_on_query_submit` distinguishes. -/
inductive PyErr where
  | valueError (msg : String)
  | runtimeError (msg : String)
  | other (msg : String)
deriving DecidableEq, Repr

/-- Error-message truncation in `_on_query_submit`: 120-character budget,
117 characters plus an ellipsis when longer. -/
def truncErr (msg : String) : String :=
  if 120 < msg.data.length then pyTake msg 117 ++ "..." else msg

/-- The status-bar text each `except` arm of `_on_query_submit` writes. -/
def statusOfErr : PyErr → String
  | .valueError m => "✗ Query error: " ++ truncErr m
  | .runtimeError m => "✗ Error: " ++ truncErr m
  | .other m => "✗ Error: " ++ truncErr m

/-- The request `search_kql` sends: target index plus search body. -/
structure KqlReq where
  index : String
  body : SearchBody

/-- The request `query_esql` posts to `/_query`: the rewritten query text
and the response format. -/
structure EsqlReq where
  query : String
  format : String

/-- A call made to the Search Backend collaborator. -/
inductive Request where
  | kql (r : KqlReq)
  | esql (r : EsqlReq)

/-- The Search Backend collaborator: how it answers each request shape. -/
structure Backend where
  kql : KqlReq → Except PyErr KqlResponse
  esql : EsqlReq → Except PyErr EsqlResponse

/-- The `MainWindow` state the controller mutates: pagination counters, the
status-bar text, the query-input buffer and language selection, the current
time-range preset, and the results table. -/
structure AppState where
  current_index : String
  current_from : Nat
  current_size : Nat
  status : String
  query_text : String
  query_type : String
  preset : String
  table : TableState

/-- `MainWindow._on_query_submit`.  It unconditionally resets `current_from`
to 0, writes the in-flight status, issues exactly one backend call (KQL with
`from_ = self.current_from`, i.e. 0, or ESQL with the time filter spliced
in), then installs the response in the results table and writes the success
status, or maps the exception onto the status bar.  Returns the new state
and the list of backend calls made. -/
def on_query_submit (B : Backend) (tr : PyDateTime × PyDateTime)
    (st : AppState) (query qtype : String) : AppState × List Request :=
  let st1 : AppState :=
    { st with
      current_from := 0
      status := "⏳ Executing " ++ qtype ++ " query... Please wait (this may take a while)" }
  if qtype = "ESQL" then
    let req : EsqlReq :=
      { query := query_esql_rewrite query (some tr) "@timestamp", format := "json" }
    match B.esql req with
    | .ok r =>
      let tbl := display_esql st1.table r
      ({ st1 with
          table := tbl
          status := "✓ ESQL query executed successfully | Time Range: " ++ st1.preset ++
            " | Results: " ++ toString tbl.total_hits },
        [Request.esql req])
    | .error e => ({ st1 with status := statusOfErr e }, [Request.esql req])
  else
    let req : KqlReq :=
      { index := st1.current_index
        body := search_kql_body query st1.current_size st1.current_from
          Option.none (some tr) "@timestamp" }
    match B.kql req with
    | .ok r =>
      let tbl := display_kql st1.table r
      ({ st1 with
          table := tbl
          status := "✓ KQL query executed successfully | Index: " ++ st1.current_index ++
            " | Time Range: " ++ st1.preset ++ " | Results: " ++ toString tbl.total_hits },
        [Request.kql req])
    | .error e => ({ st1 with status := statusOfErr e }, [Request.kql req])

/-- `handle_unhandled_input` in `main.py` for the pagination keys: `n` first
advances `current_from` by `current_size` when another page exists, `p` moves
it back (clamped at 0); both then re-submit the raw query text whenever it is
non-empty (Python truthiness, no stripping).  `q` exits the main loop (not
modelled) and the scroll keys change nothing here. -/
def handle_unhandled_input (B : Backend) (tr : PyDateTime × PyDateTime)
    (key : String) (st : AppState) : AppState × List Request :=
  if key = "n" then
    if st.current_from + st.current_size < st.table.total_hits then
      let st1 := { st with current_from := st.current_from + st.current_size }
      if st1.query_text = "" then (st1, [])
      else on_query_submit B tr st1 st1.query_text st1.query_type
    else (st, [])
  else if key = "p" then
    if 0 < st.current_from then
      let st1 := { st with current_from := st.current_from - st.current_size }
      if st1.query_text = "" then (st1, [])
      else on_query_submit B tr st1 st1.query_text st1.query_type
    else (st, [])
  else (st, [])

/-- `QueryInput.keypress` on `enter`: submit the stripped text only when it
is non-empty; a query that strips to nothing is silently ignored. -/
def queryinput_keypress_enter (B : Backend) (tr : PyDateTime × PyDateTime)
    (st : AppState) : AppState × List Request :=
  if pyStrip st.query_text = "" then (st, [])
  else on_query_submit B tr st (pyStrip st.query_text) st.query_type

/-! ## Concrete fixtures used by counterexamples and witnesses -/

/-- A stub backend answering every call with an empty, successful response. -/
def B0 : Backend :=
  { kql := fun _ => .ok { hits := [], total := KqlTotal.scalar 0 }
    esql := fun _ => .ok { columns := [], values := [] } }

/-- 2024-01-01T00:00:00.000000 and 2024-01-01T01:00:00.000000. -/
def tr0 : PyDateTime × PyDateTime :=
  (⟨2024, 1, 1, 0, 0, 0, 0⟩, ⟨2024, 1, 1, 1, 0, 0, 0⟩)

/-- The `from_` values of the structured-search calls in a request list. -/
def kqlFroms : List Request → List Nat
  | [] => []
  | Request.kql r :: rest => r.body.from_ :: kqlFroms rest
  | Request.esql _ :: rest => kqlFroms rest

/-! ## Specification-side predicates for empty-column elision (C7) -/

/-- Spec reading of an empty cell: whatever value row `row` has in column
`i` (if any) is whitespace-only. -/
def CellEmpty (row : List String) (i : Nat) : Prop :=
  ∀ v, row[i]? = some v → pyStrip v = ""

instance (row : List String) (i : Nat) : Decidable (CellEmpty row i) :=
  match h : row[i]? with
  | some v =>
    decidable_of_iff (pyStrip v = "") (by
      constructor
      · intro hv w hw
        rw [h] at hw
        cases hw
        exact hv
      · intro H
        exact H v h)
  | Option.none =>
    isTrue (by
      intro v hv
      rw [h] at hv
      cases hv)

/-- Spec reading of "every one of the column's cells across all rows is
empty after trimming whitespace". -/
def ColEmptyP (rows : List (List String)) (i : Nat) : Prop :=
  ∀ row ∈ rows, CellEmpty row i

instance (rows : List (List String)) (i : Nat) : Decidable (ColEmptyP rows i) :=
  List.decidableBAll _ rows

/-- Spec reading of "column `i` survives elision": it is not an in-range,
all-empty column. -/
def Kept (headers : List String) (rows : List (List String)) (i : Nat) : Prop :=
  ¬(i < headers.length ∧ ColEmptyP rows i)

instance (headers : List String) (rows : List (List String)) (i : Nat) :
    Decidable (Kept headers rows i) := instDecidableNot


/-- A session right after a successful query: 100 total hits, page size 10,
a non-empty KQL query in the input buffer. -/
def bugState : AppState :=
  { current_index := "logs", current_from := 0, current_size := 10,
    status := "ready", query_text := "status:200", query_type := "KQL",
    preset := "Last 15 minutes", table := { initTable with total_hits := 100 } }

/-- A session whose input buffer holds a whitespace-only query. -/
def wsState : AppState :=
  { current_index := "logs", current_from := 0, current_size := 10,
    status := "idle", query_text := "   ", query_type := "KQL",
    preset := "Last 15 minutes", table := { initTable with total_hits := 50 } }

/-- The same session with a truly empty input buffer. -/
def emptyQState : AppState := { wsState with query_text := "" }

/-- A table still holding the previous query's result. -/
def staleTable : TableState :=
  { headers := ["a"], rows := [["x"]], total_hits := 5,
    hscroll_pos := 0, from_ := 0, size := 100 }

/-- A table whose middle column is whitespace-only in every row. -/
def wtab : TableState :=
  { headers := ["a", "b", "c"], rows := [["x", "", "1"], ["y", " ", "2"]],
    total_hits := 2, hscroll_pos := 0, from_ := 0, size := 100 }

/-- A ten-column table scrolled two columns to the right. -/
def st8 : TableState :=
  { headers := ["c1", "c2", "c3", "c4", "c5", "c6", "c7", "c8", "c9", "c10"],
    rows := [], total_hits := 0, hscroll_pos := 2, from_ := 0, size := 100 }

/-- A hit whose source has the single field `msg`. -/
def hit0 : KqlHit :=
  { id := "1", index := "logs-2024", source := [("msg", PyValue.str "hello")] }

/-- A hit lacking the first hit's `msg` field. -/
def hit1 : KqlHit :=
  { id := "2", index := "logs-2024", source := [("other", PyValue.int 7)] }

/-- A one-hit structured response. -/
def resp0 : KqlResponse := { hits := [hit0], total := KqlTotal.dict (some 1) }

/-- A two-hit structured response with heterogeneous field sets. -/
def resp1 : KqlResponse := { hits := [hit0, hit1], total := KqlTotal.dict (some 2) }

/-- A non-empty ESQL response. -/
def eresp1 : EsqlResponse := { columns := ["k"], values := [[PyValue.str "v"]] }

/-! # Helper lemmas -/
lemma digitsPadded_length (n w : Nat) : (digitsPadded n w).length = w := by
  induction w generalizing n with
  | zero => rfl
  | succ w ih => simp [digitsPadded, ih]

lemma digitsPadded_split (a b n : Nat) :
    digitsPadded n (a + b) =
      digitsPadded (n / 10 ^ b) a ++ digitsPadded (n % 10 ^ b) b := by
  induction b generalizing n with
  | zero => simp [digitsPadded]
  | succ b ih =>
    have h1 : a + (b + 1) = (a + b) + 1 := rfl
    rw [h1]
    show digitsPadded (n / 10) (a + b) ++ [Nat.digitChar (n % 10)] = _
    rw [ih (n / 10)]
    have hdiv : n / 10 / 10 ^ b = n / 10 ^ (b + 1) := by
      rw [Nat.div_div_eq_div_mul, pow_succ']
    have hmodd : n % 10 ^ (b + 1) / 10 = n / 10 % 10 ^ b := by
      rw [pow_succ']
      exact Nat.mod_mul_right_div_self n 10 (10 ^ b)
    have hmodm : n % 10 ^ (b + 1) % 10 = n % 10 := by
      apply Nat.mod_mod_of_dvd
      exact ⟨10 ^ b, by rw [pow_succ']⟩
    show _ = digitsPadded (n / 10 ^ (b + 1)) a ++
      (digitsPadded (n % 10 ^ (b + 1) / 10) b ++ [Nat.digitChar (n % 10 ^ (b + 1) % 10)])
    rw [hdiv, hmodd, hmodm, List.append_assoc]


lemma colAllEmpty_iff (rows : List (List String)) (i : Nat) :
    colAllEmpty rows i = true ↔ ColEmptyP rows i := by
  unfold colAllEmpty ColEmptyP CellEmpty
  rw [List.all_eq_true]
  constructor
  · intro h row hrow v hv
    have := h row hrow
    rw [hv] at this
    exact of_decide_eq_true (by simpa using this)
  · intro h row hrow
    cases hget : row[i]? with
    | none => simp [hget]
    | some v => simp [hget, h row hrow v hget]

lemma mem_empty_col_indices (headers : List String) (rows : List (List String)) (i : Nat) :
    i ∈ empty_col_indices headers rows ↔ i < headers.length ∧ ColEmptyP rows i := by
  unfold empty_col_indices
  rw [List.mem_filter, List.mem_range, colAllEmpty_iff]

lemma length_filter_lt {α : Type} (l : List α) (p : α → Bool) (a : α)
    (ha : a ∈ l) (hpa : p a = false) : (l.filter p).length < l.length := by
  induction l with
  | nil => cases ha
  | cons x t ih =>
    rw [List.mem_cons] at ha
    rcases ha with rfl | hmem
    · simp only [List.filter_cons, hpa, List.length_cons]
      exact Nat.lt_succ_of_le (List.length_filter_le p t)
    · by_cases hx : p x
      · simp only [List.filter_cons, hx, if_true, List.length_cons]
        exact Nat.succ_lt_succ (ih hmem)
      · simp only [List.filter_cons, Bool.not_eq_true] at hx
        simp only [List.filter_cons, hx, List.length_cons]
        exact Nat.lt_succ_of_lt (ih hmem)

lemma decide_mem_empties (headers : List String) (rows : List (List String)) (j : Nat) :
    (!(decide (j ∈ empty_col_indices headers rows))) = decide (Kept headers rows j) := by
  have h1 : decide (j ∈ empty_col_indices headers rows)
      = decide (j < headers.length ∧ ColEmptyP rows j) :=
    decide_eq_decide.mpr (mem_empty_col_indices headers rows j)
  rw [h1]
  unfold Kept
  rw [decide_not]

lemma removeIdxs_eq (headers : List String) (rows : List (List String)) (l : List String) :
    removeIdxs (empty_col_indices headers rows) l
      = (l.enum.filter fun p => decide (Kept headers rows p.1)).map Prod.snd := by
  unfold removeIdxs
  congr 1
  exact List.filter_congr fun p _ => decide_mem_empties headers rows p.1

/-! # Claim theorems -/

/-- C7: empty-column elision drops a column exactly when every one of its
cells across all rows is empty after trimming whitespace, except that when
this would drop every column (including the degenerate no-headers / no-rows
cases) nothing is dropped at all; when something survives, the surviving
headers are the original headers restricted, in order, to the kept column
indices, every row is filtered in lockstep by the same index set, and the
result never has zero columns. -/
theorem elide_empty_columns_correct :
    (∀ st : TableState, (∀ i < st.headers.length, ColEmptyP st.rows i) →
      filter_empty_columns st = st)
    ∧ (∀ st : TableState, (∃ i, i < st.headers.length ∧ ¬ ColEmptyP st.rows i) →
        (filter_empty_columns st).headers
          = (st.headers.enum.filter fun p => decide (Kept st.headers st.rows p.1)).map Prod.snd
        ∧ (filter_empty_columns st).rows
          = st.rows.map (fun row =>
              (row.enum.filter fun p => decide (Kept st.headers st.rows p.1)).map Prod.snd)
        ∧ (filter_empty_columns st).headers ≠ []
        ∧ (filter_empty_columns st).total_hits = st.total_hits) := by
  constructor
  · -- all columns empty (or no headers / no rows): nothing is dropped
    intro st hall
    unfold filter_empty_columns elide
    by_cases hguard : st.headers.isEmpty || st.rows.isEmpty
    · simp [hguard]
    · have hfull : empty_col_indices st.headers st.rows = List.range st.headers.length := by
        unfold empty_col_indices
        apply List.filter_eq_self.mpr
        intro i hi
        rw [List.mem_range] at hi
        exact (colAllEmpty_iff st.rows i).mpr (hall i hi)
      simp only [hguard, Bool.false_eq_true, if_false, hfull, List.length_range,
        lt_self_iff_false, decide_False, Bool.and_false, Bool.false_eq_true, if_false]
  · intro st ⟨i0, hi0, hne⟩
    have hrows : st.rows ≠ [] := by
      intro h
      exact hne (by intro row hrow; rw [h] at hrow; cases hrow)
    have hheaders : st.headers ≠ [] := List.ne_nil_of_length_pos (Nat.lt_of_le_of_lt (Nat.zero_le i0) hi0)
    have hguard : (st.headers.isEmpty || st.rows.isEmpty) = false := by
      simp [List.isEmpty_iff, hheaders, hrows]
    unfold filter_empty_columns elide
    by_cases hA : empty_col_indices st.headers st.rows = []
    · have hKept : ∀ j, decide (Kept st.headers st.rows j) = true := by
        intro j
        apply decide_eq_true
        intro hjc
        have hm : j ∈ empty_col_indices st.headers st.rows :=
          (mem_empty_col_indices _ _ _).mpr hjc
        rw [hA] at hm
        cases hm
      have hfixed : ∀ l : List String,
          (l.enum.filter fun p => decide (Kept st.headers st.rows p.1)).map Prod.snd = l := by
        intro l
        rw [List.filter_eq_self.mpr fun a _ => hKept a.1, List.enum_map_snd]
      simp only [hguard, Bool.false_eq_true, if_false, hA, List.isEmpty_nil, Bool.not_true,
        Bool.false_and, if_false]
      refine ⟨(hfixed st.headers).symm, ?_, hheaders, trivial⟩
      have : ∀ row ∈ st.rows,
          (row.enum.filter fun p => decide (Kept st.headers st.rows p.1)).map Prod.snd = row :=
        fun row _ => hfixed row
      rw [List.map_congr_left this, List.map_id']
    · have hi0mem : i0 ∈ List.range st.headers.length := List.mem_range.mpr hi0
      have hi0false : colAllEmpty st.rows i0 = false :=
        Bool.eq_false_iff.mpr fun h => hne ((colAllEmpty_iff st.rows i0).mp h)
      have hlt : (empty_col_indices st.headers st.rows).length < st.headers.length := by
        have h2 := length_filter_lt (List.range st.headers.length)
          (colAllEmpty st.rows) i0 hi0mem hi0false
        rw [List.length_range] at h2
        exact h2
      have hguard2 : (!(empty_col_indices st.headers st.rows).isEmpty
          && decide ((empty_col_indices st.headers st.rows).length < st.headers.length)) = true := by
        simp [List.isEmpty_iff, hA, hlt]
      simp only [hguard, Bool.false_eq_true, if_false, hguard2, if_true]
      refine ⟨removeIdxs_eq st.headers st.rows st.headers, ?_, ?_, trivial⟩
      · exact List.map_congr_left fun row _ => removeIdxs_eq st.headers st.rows row
      · rw [removeIdxs_eq]
        have hkepti0 : decide (Kept st.headers st.rows i0) = true :=
          decide_eq_true fun hjc => hne hjc.2
        have henum : (i0, st.headers.get ⟨i0, hi0⟩) ∈ st.headers.enum :=
          List.mk_mem_enum_iff_getElem?.mpr (by rw [List.getElem?_eq_getElem hi0, List.get_eq_getElem])
        have hfmem : (i0, st.headers.get ⟨i0, hi0⟩) ∈
            st.headers.enum.filter fun p => decide (Kept st.headers st.rows p.1) :=
          List.mem_filter.mpr ⟨henum, hkepti0⟩
        exact List.ne_nil_of_mem (List.mem_map_of_mem Prod.snd hfmem)

/-- C9: the backend timestamp encoding is the microsecond-precision ISO
rendering with the last 3 digits of the fractional part dropped and `Z`
appended: the millisecond field is the floor of `microsecond / 1000`
(truncation, never rounding), and the output always ends in `Z`. -/
theorem es_time_format_truncates :
    ∀ d : PyDateTime,
      es_time_chars d
        = iso_second_head d ++ (digitsPadded (d.microsecond / 1000) 3 ++ ['Z'])
      ∧ (esFormat d).data.getLast? = some 'Z' := by
  intro d
  have hsplit : digitsPadded d.microsecond 6
      = digitsPadded (d.microsecond / 1000) 3 ++ digitsPadded (d.microsecond % 1000) 3 := by
    have h := digitsPadded_split 3 3 d.microsecond
    norm_num at h
    exact h
  constructor
  · simp only [es_time_chars, strftime_iso_micro]
    rw [hsplit]
    have hlen : (iso_second_head d ++
        (digitsPadded (d.microsecond / 1000) 3 ++ digitsPadded (d.microsecond % 1000) 3)).length - 3
        = (iso_second_head d).length + 3 := by
      simp [digitsPadded_length]
    rw [hlen, List.take_append_eq_append_take,
      List.take_of_length_le (Nat.le_add_right _ 3), Nat.add_sub_cancel_left,
      List.take_left' (digitsPadded_length _ 3), List.append_assoc]
  · simp only [esFormat, es_time_chars]
    exact List.getLast?_concat _

/-- C5: KQL compilation: with a time range and empty trimmed text the query
is exactly the range clause; with non-empty text it is a `bool`/`must` AND
of range clause and free-text clause; with empty text and no range it is
`match_all`; and with no explicit sort the body carries the default sort on
the time field descending. -/
theorem search_kql_body_shapes :
    (∀ q sz fr s e tf, pyStrip q = "" →
      (search_kql_body q sz fr Option.none (some (s, e)) tf).query
        = ESQueryClause.rangeClause tf (esFormat s) (esFormat e))
    ∧ (∀ q sz fr s e tf, pyStrip q ≠ "" →
      (search_kql_body q sz fr Option.none (some (s, e)) tf).query
        = ESQueryClause.boolMust [ESQueryClause.rangeClause tf (esFormat s) (esFormat e),
            ESQueryClause.queryString q])
    ∧ (∀ q sz fr tf, pyStrip q = "" →
      (search_kql_body q sz fr Option.none Option.none tf).query = ESQueryClause.matchAll)
    ∧ (∀ q sz fr tr tf,
      (search_kql_body q sz fr Option.none tr tf).sort = [(tf, "desc")]) := by
  refine ⟨?_, ?_, ?_, ?_⟩
  · intro q sz fr s e tf h
    simp [search_kql_body, h]
  · intro q sz fr s e tf h
    simp [search_kql_body, h]
  · intro q sz fr tf h
    simp [search_kql_body, h]
  · intro q sz fr tr tf
    rcases tr with _ | ⟨s, e⟩ <;> simp [search_kql_body]

/-- C2 (amended): an ESQL query containing neither `FROM` nor `WHERE`
(case-insensitively) is returned unmodified when compiled with a time
range.  (The original claim, conditioned only on the absence of `FROM`, is
refuted by `esql_no_from_rewrite_cex`: the `WHERE` branch fires first.) -/
theorem esql_no_from_no_where_unchanged :
    ∀ (q : String) (tr : PyDateTime × PyDateTime) (tf : String),
      pyContains (pyUpper q) "WHERE" = false →
      pyContains (pyUpper q) "FROM" = false →
      query_esql_rewrite q (some tr) tf = q := by
  intro q tr tf hw hf
  obtain ⟨s, e⟩ := tr
  have hw' : pyFindStr (pyUpper q) "WHERE" = Option.none := by
    cases h : pyFindStr (pyUpper q) "WHERE" with
    | none => rfl
    | some v => rw [pyContains, h] at hw; cases hw
  have hf' : pyFindStr (pyUpper q) "FROM" = Option.none := by
    cases h : pyFindStr (pyUpper q) "FROM" with
    | none => rfl
    | some v => rw [pyContains, h] at hf; cases hf
  simp [query_esql_rewrite, hw', hf']

/-- C6: compiling `"FROM logs | LIMIT 10"` with the range
2024-01-01T00:00:00.000Z .. 2024-01-01T01:00:00.000Z on `@timestamp` yields
exactly the claimed string; and in general, for a WHERE-less query with a
`FROM`, the new WHERE stage goes immediately before the first pipe after
`FROM`, or is appended at the end when there is no pipe. -/
theorem query_esql_time_injection :
    query_esql_rewrite "FROM logs | LIMIT 10" (some tr0) "@timestamp"
      = "FROM logs | WHERE @timestamp >= \"2024-01-01T00:00:00.000Z\" AND @timestamp <= \"2024-01-01T01:00:00.000Z\" | LIMIT 10"
    ∧ (∀ (q tf : String) (s e : PyDateTime) (from_pos pipe_pos : Nat),
        pyFindStr (pyUpper q) "WHERE" = Option.none →
        pyFindStr (pyUpper q) "FROM" = some from_pos →
        pyFindCharFrom q '|' from_pos = some pipe_pos →
        query_esql_rewrite q (some (s, e)) tf
          = pyStrip (pyTake q pipe_pos) ++ " | WHERE " ++ tf ++ " >= \"" ++ esFormat s ++
            "\" AND " ++ tf ++ " <= \"" ++ esFormat e ++ "\" | " ++
            pyStrip (pyDrop q (pipe_pos + 1)))
    ∧ (∀ (q tf : String) (s e : PyDateTime) (from_pos : Nat),
        pyFindStr (pyUpper q) "WHERE" = Option.none →
        pyFindStr (pyUpper q) "FROM" = some from_pos →
        pyFindCharFrom q '|' from_pos = Option.none →
        query_esql_rewrite q (some (s, e)) tf
          = pyStrip q ++ " | WHERE " ++ tf ++ " >= \"" ++ esFormat s ++ "\" AND " ++ tf ++
            " <= \"" ++ esFormat e ++ "\"") := by
  refine ⟨by decide, ?_, ?_⟩
  · intro q tf s e from_pos pipe_pos h1 h2 h3
    simp [query_esql_rewrite, h1, h2, h3]
  · intro q tf s e from_pos h1 h2 h3
    simp [query_esql_rewrite, h1, h2, h3]

/-- C2 counterexample: a query with no `FROM` but containing `WHERE` is
*not* left unmodified — the time filter is spliced into its WHERE clause. -/
theorem esql_no_from_rewrite_cex :
    pyContains (pyUpper "ROW x = 1 | WHERE x > 0") "FROM" = false ∧
    query_esql_rewrite "ROW x = 1 | WHERE x > 0" (some tr0) "@timestamp"
      ≠ "ROW x = 1 | WHERE x > 0" := by decide

/-- C2 witness: a concrete `FROM`-less, `WHERE`-less query is unchanged. -/
theorem esql_no_from_no_where_unchanged_w :
    pyContains (pyUpper "ROW a = 1 | LIMIT 5") "WHERE" = false ∧
    pyContains (pyUpper "ROW a = 1 | LIMIT 5") "FROM" = false ∧
    query_esql_rewrite "ROW a = 1 | LIMIT 5" (some tr0) "@timestamp"
      = "ROW a = 1 | LIMIT 5" :=
  ⟨by decide, by decide,
    esql_no_from_no_where_unchanged "ROW a = 1 | LIMIT 5" tr0 "@timestamp"
      (by decide) (by decide)⟩

/-- C5 witness: the four compilation shapes at concrete inputs. -/
theorem search_kql_body_shapes_w :
    pyStrip "" = "" ∧
    (search_kql_body "" 100 0 Option.none (some tr0) "@timestamp").query
      = ESQueryClause.rangeClause "@timestamp" (esFormat tr0.1) (esFormat tr0.2) ∧
    pyStrip "status:200" ≠ "" ∧
    (search_kql_body "status:200" 100 0 Option.none (some tr0) "@timestamp").query
      = ESQueryClause.boolMust
          [ESQueryClause.rangeClause "@timestamp" (esFormat tr0.1) (esFormat tr0.2),
            ESQueryClause.queryString "status:200"] ∧
    (search_kql_body "" 100 0 Option.none Option.none "@timestamp").query
      = ESQueryClause.matchAll ∧
    (search_kql_body "x" 100 0 Option.none (some tr0) "@timestamp").sort
      = [("@timestamp", "desc")] :=
  ⟨rfl,
    search_kql_body_shapes.1 "" 100 0 tr0.1 tr0.2 "@timestamp" rfl,
    by decide,
    search_kql_body_shapes.2.1 "status:200" 100 0 tr0.1 tr0.2 "@timestamp" (by decide),
    search_kql_body_shapes.2.2.1 "" 100 0 "@timestamp" rfl,
    search_kql_body_shapes.2.2.2 "x" 100 0 (some tr0) "@timestamp"⟩

/-- C6 witness: the two general insertion shapes at concrete queries. -/
theorem query_esql_time_injection_w :
    pyFindStr (pyUpper "FROM a | LIMIT 1") "WHERE" = Option.none ∧
    pyFindStr (pyUpper "FROM a | LIMIT 1") "FROM" = some 0 ∧
    pyFindCharFrom "FROM a | LIMIT 1" '|' 0 = some 7 ∧
    query_esql_rewrite "FROM a | LIMIT 1" (some (tr0.1, tr0.2)) "@timestamp"
      = pyStrip (pyTake "FROM a | LIMIT 1" 7) ++ " | WHERE " ++ "@timestamp" ++ " >= \"" ++
        esFormat tr0.1 ++ "\" AND " ++ "@timestamp" ++ " <= \"" ++ esFormat tr0.2 ++ "\" | " ++
        pyStrip (pyDrop "FROM a | LIMIT 1" 8) ∧
    query_esql_rewrite "FROM a" (some (tr0.1, tr0.2)) "@timestamp"
      = pyStrip "FROM a" ++ " | WHERE " ++ "@timestamp" ++ " >= \"" ++ esFormat tr0.1 ++
        "\" AND " ++ "@timestamp" ++ " <= \"" ++ esFormat tr0.2 ++ "\"" :=
  ⟨by decide, by decide, by decide,
    query_esql_time_injection.2.1 "FROM a | LIMIT 1" "@timestamp" tr0.1 tr0.2 0 7
      (by decide) (by decide) (by decide),
    query_esql_time_injection.2.2 "FROM a" "@timestamp" tr0.1 tr0.2 0
      (by decide) (by decide) (by decide)⟩

/-- C8: the horizontal viewport offset stays within `[0, max 0 (columnCount - 6)]` under every key event, is reset to 0 when a new result is installed by either display path, `scrollRight` increments it by exactly 1 precisely below the bound and is otherwise a no-op, and `scrollLeft` decrements by exactly 1 precisely above 0 and is a no-op at 0. -/
theorem viewport_scroll_correct :
    (∀ (st : TableState) (key : String), st.hscroll_pos ≤ maxOffset st.headers →
      (results_keypress st key).1.hscroll_pos ≤ maxOffset (results_keypress st key).1.headers)
    ∧ (∀ (st : TableState) (r : KqlResponse), r.hits ≠ [] → (display_kql st r).hscroll_pos = 0)
    ∧ (∀ (st : TableState) (r : EsqlResponse), (r.columns.isEmpty || r.values.isEmpty) = false →
        (display_esql st r).hscroll_pos = 0)
    ∧ (∀ (st : TableState) (key : String), (key = "right" ∨ key = "l") →
        st.hscroll_pos < maxOffset st.headers →
        (results_keypress st key).1 = { st with hscroll_pos := st.hscroll_pos + 1 })
    ∧ (∀ (st : TableState) (key : String), (key = "right" ∨ key = "l") →
        ¬ st.hscroll_pos < maxOffset st.headers → (results_keypress st key).1 = st)
    ∧ (∀ (st : TableState) (key : String), (key = "left" ∨ key = "h") →
        0 < st.hscroll_pos →
        (results_keypress st key).1 = { st with hscroll_pos := st.hscroll_pos - 1 })
    ∧ (∀ (st : TableState) (key : String), (key = "left" ∨ key = "h") →
        st.hscroll_pos = 0 → (results_keypress st key).1 = st) := by
  refine ⟨?_, ?_, ?_, ?_, ?_, ?_, ?_⟩
  · intro st key h
    unfold results_keypress
    split_ifs <;> simp <;> omega
  · intro st r h
    cases hh : r.hits with
    | nil => exact absurd hh h
    | cons a t => simp [display_kql, hh]
  · intro st r h
    simp [display_esql, h]
  · intro st key hk h
    rcases hk with rfl | rfl <;> simp [results_keypress, h]
  · intro st key hk h
    rcases hk with rfl | rfl <;> simp [results_keypress, h]
  · intro st key hk h
    rcases hk with rfl | rfl <;> simp [results_keypress, h]
  · intro st key hk h
    rcases hk with rfl | rfl <;> simp [results_keypress, h]

lemma pyInsert1_length (x : String) (l : List String) :
    (pyInsert1 x l).length = l.length + 1 := by
  cases l <;> simp [pyInsert1]

lemma two_le_of_mem_mem {l : List String} {a b : String}
    (ha : a ∈ l) (hb : b ∈ l) (hab : a ≠ b) : 2 ≤ l.length := by
  cases l with
  | nil => cases ha
  | cons x t =>
    cases t with
    | nil =>
      rw [List.mem_singleton] at ha hb
      exact absurd (ha.trans hb.symm) hab
    | cons y u => simp [List.length]
  -- hmm length (x :: y :: u) = u.length + 2; 2 ≤ _ + 2

lemma two_le_kqlHeaders_length (source : List (String × PyValue)) :
    2 ≤ (kqlHeaders source).length := by
  unfold kqlHeaders
  by_cases h1 : "_id" ∈ source.map Prod.fst
  · simp only [h1, if_true]
    by_cases h2 : "_index" ∈ source.map Prod.fst
    · simp only [h2, if_true]
      exact two_le_of_mem_mem h1 h2 (by decide)
    · simp only [h2, if_false, pyInsert1_length]
      have : 1 ≤ (source.map Prod.fst).length := List.length_pos.mpr (List.ne_nil_of_mem h1)
      omega
  · simp only [h1, if_false]
    by_cases h2 : "_index" ∈ ("_id" :: source.map Prod.fst)
    · simp only [h2, if_true, List.length_cons]
      rcases List.mem_cons.mp h2 with h3 | h3
      · exact absurd h3 (by decide)
      · have : 1 ≤ (source.map Prod.fst).length := List.length_pos.mpr (List.ne_nil_of_mem h3)
        omega
    · simp only [h2, if_false, pyInsert1_length, List.length_cons]
      omega

lemma pyGet_eq_none {src : List (String × PyValue)} {k : String}
    (h : k ∉ src.map Prod.fst) : pyGet src k = Option.none := by
  induction src with
  | nil => rfl
  | cons p rest ih =>
    simp only [List.map_cons, List.mem_cons, not_or] at h
    obtain ⟨p1, p2⟩ := p
    simp only [pyGet]
    rw [if_neg fun hh => h.1 hh.symm]
    exact ih h.2

/-- C10: in the KQL normalization path every built row has exactly one cell per column before elision; the first two cells hold the hit id and hit index, and a hit lacking one of the first hit's source fields gets the empty string in that column (no failure, no shortened row). -/
theorem kql_rows_well_formed :
    ∀ (r : KqlResponse) (first : KqlHit) (rest : List KqlHit), r.hits = first :: rest →
      (∀ hit ∈ r.hits, (kqlRow (kqlHeaders first.source) hit).length
        = (kqlHeaders first.source).length)
      ∧ (∀ hit ∈ r.hits, (kqlRow (kqlHeaders first.source) hit)[0]? = some hit.id
          ∧ (kqlRow (kqlHeaders first.source) hit)[1]? = some hit.index)
      ∧ (∀ hit ∈ r.hits, ∀ (j : Nat) (name : String), 2 ≤ j →
          (kqlHeaders first.source)[j]? = some name →
          name ∉ hit.source.map Prod.fst →
          (kqlRow (kqlHeaders first.source) hit)[j]? = some "") := by
  intro r first rest _
  refine ⟨?_, ?_, ?_⟩
  · intro hit _
    have h2 := two_le_kqlHeaders_length first.source
    simp only [kqlRow, List.length_append, List.length_map, List.length_drop,
      List.length_cons, List.length_nil]
    omega
  · intro hit _
    exact ⟨by simp [kqlRow], by simp [kqlRow]⟩
  · intro hit _ j name hj hname hmiss
    have hlen2 : ([hit.id, hit.index] : List String).length = 2 := rfl
    rw [kqlRow, List.getElem?_append_right (by rw [hlen2]; exact hj), hlen2,
      List.getElem?_map, List.getElem?_drop]
    have hjj : 2 + (j - 2) = j := by omega
    rw [hjj, hname]
    simp [pyGet_eq_none hmiss]

/-- C3 (amended): a submission with a non-empty backend response rebuilds columns, rows and totalHits entirely from the response (no dependence on the previous table state); but a KQL response with no hits only updates totalHits and leaves the previous columns and rows in place, and an ESQL response with no columns or no values leaves the whole table state (including the stale totalHits) unchanged — only the rendered list is cleared. -/
theorem submit_rebuild_and_empty_response_frame :
    (∀ (st : TableState) (r : KqlResponse), r.hits = [] →
      display_kql st r = { st with total_hits := extractTotal r.total })
    ∧ (∀ (st : TableState) (r : EsqlResponse), (r.columns.isEmpty || r.values.isEmpty) = true →
      display_esql st r = st)
    ∧ (∀ (s1 s2 : TableState) (r : KqlResponse), r.hits ≠ [] →
        (display_kql s1 r).headers = (display_kql s2 r).headers
        ∧ (display_kql s1 r).rows = (display_kql s2 r).rows
        ∧ (display_kql s1 r).total_hits = (display_kql s2 r).total_hits)
    ∧ (∀ (s1 s2 : TableState) (r : EsqlResponse), (r.columns.isEmpty || r.values.isEmpty) = false →
        (display_esql s1 r).headers = (display_esql s2 r).headers
        ∧ (display_esql s1 r).rows = (display_esql s2 r).rows
        ∧ (display_esql s1 r).total_hits = (display_esql s2 r).total_hits) := by
  refine ⟨?_, ?_, ?_, ?_⟩
  · intro st r h
    simp [display_kql, h]
  · intro st r h
    simp only [display_esql, h, if_true]
  · intro s1 s2 r h
    cases hh : r.hits with
    | nil => exact absurd hh h
    | cons a t => simp [display_kql, hh, filter_empty_columns]
  · intro s1 s2 r h
    simp [display_esql, h, filter_empty_columns]

/-- C1 (code bug): with 100 total hits, page size 10 and offset 0, pressing `n` re-submits the query, but the structured-search call carries `from_ = 0` — not the advanced offset 10 — because `_on_query_submit` unconditionally resets `current_from`; the session offset also ends at 0. -/
theorem next_page_resubmits_from_zero :
    kqlFroms (handle_unhandled_input B0 tr0 "n" bugState).2 = [0] ∧
    (handle_unhandled_input B0 tr0 "n" bugState).1.current_from = 0 ∧
    bugState.current_from + bugState.current_size = 10 := by decide

/-- C4 counterexample: a whitespace-only (non-empty) query with the pagination guard satisfied *is* re-submitted by the `n` handler: the backend is called once and the status line changes. -/
theorem whitespace_query_next_page_submits_cex :
    pyStrip wsState.query_text = "" ∧
    (handle_unhandled_input B0 tr0 "n" wsState).2.length = 1 ∧
    (handle_unhandled_input B0 tr0 "n" wsState).1.status ≠ wsState.status := by decide

/-- C4 (amended): the enter path never calls the backend and leaves the session state (status included) unchanged for queries that trim to empty; the next/previous-page paths make no backend call and leave the status line unchanged when the query text is exactly empty (a whitespace-only text, being truthy, is re-submitted — see the counterexample). -/
theorem empty_query_paths_ignored :
    (∀ (B : Backend) (tr : PyDateTime × PyDateTime) (st : AppState),
      pyStrip st.query_text = "" → queryinput_keypress_enter B tr st = (st, []))
    ∧ (∀ (B : Backend) (tr : PyDateTime × PyDateTime) (st : AppState),
        st.query_text = "" →
        (handle_unhandled_input B tr "n" st).2 = []
        ∧ (handle_unhandled_input B tr "n" st).1.status = st.status)
    ∧ (∀ (B : Backend) (tr : PyDateTime × PyDateTime) (st : AppState),
        st.query_text = "" →
        (handle_unhandled_input B tr "p" st).2 = []
        ∧ (handle_unhandled_input B tr "p" st).1.status = st.status) := by
  refine ⟨?_, ?_, ?_⟩
  · intro B tr st h
    simp [queryinput_keypress_enter, h]
  · intro B tr st h
    unfold handle_unhandled_input
    split_ifs with h1 h2 h3 <;> simp_all
  · intro B tr st h
    unfold handle_unhandled_input
    split_ifs with h1 h2 h3 <;> simp_all

/-- C4 witness: the ignored paths at concrete states. -/
theorem empty_query_paths_ignored_w :
    pyStrip wsState.query_text = "" ∧
    queryinput_keypress_enter B0 tr0 wsState = (wsState, []) ∧
    (handle_unhandled_input B0 tr0 "n" emptyQState).2 = [] ∧
    (handle_unhandled_input B0 tr0 "p" emptyQState).2 = [] :=
  ⟨by decide,
    empty_query_paths_ignored.1 B0 tr0 wsState (by decide),
    (empty_query_paths_ignored.2.1 B0 tr0 emptyQState rfl).1,
    (empty_query_paths_ignored.2.2 B0 tr0 emptyQState rfl).1⟩

/-- C3 counterexample: after a no-hit KQL submission the previous result's
column and row are still installed (the new "empty result" has one column,
not zero), and an ESQL response with no columns leaves the stale totalHits
in place. -/
theorem empty_response_keeps_old_table_cex :
    (display_kql staleTable { hits := [], total := KqlTotal.dict (some 0) }).headers = ["a"] ∧
    (display_kql staleTable { hits := [], total := KqlTotal.dict (some 0) }).rows = [["x"]] ∧
    (display_kql staleTable { hits := [], total := KqlTotal.dict (some 0) }).headers.length ≠ 0 ∧
    (display_esql staleTable { columns := [], values := [] }).total_hits = 5 := by decide

/-- C3 witness: the frame conditions at concrete states and responses. -/
theorem submit_rebuild_and_empty_response_frame_w :
    display_kql staleTable { hits := [], total := KqlTotal.scalar 3 }
      = { staleTable with total_hits := 3 } ∧
    display_esql staleTable { columns := [], values := [] } = staleTable ∧
    (display_kql staleTable resp1).headers = (display_kql initTable resp1).headers ∧
    (display_esql staleTable eresp1).rows = (display_esql initTable eresp1).rows :=
  ⟨submit_rebuild_and_empty_response_frame.1 staleTable
      { hits := [], total := KqlTotal.scalar 3 } rfl,
    submit_rebuild_and_empty_response_frame.2.1 staleTable
      { columns := [], values := [] } rfl,
    (submit_rebuild_and_empty_response_frame.2.2.1 staleTable initTable resp1
      (by decide)).1,
    (submit_rebuild_and_empty_response_frame.2.2.2 staleTable initTable eresp1
      (by decide)).2.1⟩

/-- C7 witness: elision of the all-empty middle column of a concrete table. -/
theorem elide_empty_columns_correct_w :
    (∃ i, i < wtab.headers.length ∧ ¬ ColEmptyP wtab.rows i) ∧
    ((filter_empty_columns wtab).headers
        = (wtab.headers.enum.filter fun p => decide (Kept wtab.headers wtab.rows p.1)).map
            Prod.snd
      ∧ (filter_empty_columns wtab).rows
        = wtab.rows.map (fun row =>
            (row.enum.filter fun p => decide (Kept wtab.headers wtab.rows p.1)).map Prod.snd)
      ∧ (filter_empty_columns wtab).headers ≠ []
      ∧ (filter_empty_columns wtab).total_hits = wtab.total_hits) :=
  ⟨⟨0, by decide, by decide⟩,
    elide_empty_columns_correct.2 wtab ⟨0, by decide, by decide⟩⟩

/-- C8 witness: the scroll transitions at a concrete ten-column table. -/
theorem viewport_scroll_correct_w :
    st8.hscroll_pos ≤ maxOffset st8.headers ∧
    (results_keypress st8 "x").1.hscroll_pos
      ≤ maxOffset (results_keypress st8 "x").1.headers ∧
    st8.hscroll_pos < maxOffset st8.headers ∧
    (results_keypress st8 "right").1 = { st8 with hscroll_pos := st8.hscroll_pos + 1 } ∧
    (results_keypress st8 "left").1 = { st8 with hscroll_pos := st8.hscroll_pos - 1 } ∧
    (display_kql initTable resp0).hscroll_pos = 0 :=
  ⟨by decide,
    viewport_scroll_correct.1 st8 "x" (by decide),
    by decide,
    viewport_scroll_correct.2.2.2.1 st8 "right" (Or.inl rfl) (by decide),
    viewport_scroll_correct.2.2.2.2.2.1 st8 "left" (Or.inl rfl) (by decide),
    viewport_scroll_correct.2.1 initTable resp0 (by decide)⟩

/-- C10 witness: the row built for a hit lacking the first hit's only source
field has full length, carries id and index first, and an empty cell for the
missing field. -/
theorem kql_rows_well_formed_w :
    resp1.hits = hit0 :: [hit1] ∧
    (kqlRow (kqlHeaders hit0.source) hit1).length = (kqlHeaders hit0.source).length ∧
    (kqlRow (kqlHeaders hit0.source) hit1)[0]? = some hit1.id ∧
    (kqlRow (kqlHeaders hit0.source) hit1)[2]? = some "" :=
  ⟨rfl,
    (kql_rows_well_formed resp1 hit0 [hit1] rfl).1 hit1 (by decide),
    ((kql_rows_well_formed resp1 hit0 [hit1] rfl).2.1 hit1 (by decide)).1,
    (kql_rows_well_formed resp1 hit0 [hit1] rfl).2.2 hit1 (by decide) 2 "msg"
      (by decide) (by decide) (by decide)⟩
